import Mathlib

/-!
Shallow embedding of the turn-taking voice-assistant controller of this
repository (src/src/components/VoiceAssistant.tsx) and of the generic
HTTP relay (src/supabase/functions/proxy-api/index.ts).

Strings are modelled with Lean strings; the JavaScript operations
`String.prototype.includes`, `trim` and `toLowerCase` are modelled on the
underlying character lists (ASCII lowering via Char.toLower, which covers
every character the repository compares).  Asynchronous callbacks are
modelled as pure state-transition functions on an explicit controller
state; the browser speech-synthesis path and the audio-element playback
path are both represented by a single `speaking` flag meaning "playback is
active".
-/

/-- JavaScript `s.includes(sub)`: substring containment. -/
def jsIncludes (s sub : String) : Bool :=
  decide (sub.toList <:+: s.toList)

/-- JavaScript `s.toLowerCase()` restricted to ASCII letters. -/
def toLowerStr (s : String) : String :=
  ⟨s.data.map Char.toLower⟩

/-- JavaScript `l.trim()` on a character list: drop whitespace at both ends. -/
def trimChars (l : List Char) : List Char :=
  ((l.dropWhile Char.isWhitespace).reverse.dropWhile Char.isWhitespace).reverse

/-- The recognizer normalization at VoiceAssistant.tsx line 81:
`transcript.trim().toLowerCase()`. -/
def normalizeTranscript (raw : String) : String :=
  toLowerStr ⟨trimChars raw.data⟩

/-- One chat message, both as persisted and as sent to the model: a role
and a text. -/
structure ChatMessage where
  role : String
  content : String
  deriving DecidableEq

/-- The recency read of the messages table (VoiceAssistant.tsx lines
364-369): order by creation time descending, then limit.  The store is the
chronological (oldest-first) list of persisted messages of the
conversation. -/
def selectRecent (store : List ChatMessage) (limit : Nat) : List ChatMessage :=
  store.reverse.take limit

/-- `fetchMessageHistory` (VoiceAssistant.tsx lines 360-385): empty when the
limit is zero, otherwise the recency-descending fetch reversed back to
chronological order. -/
def fetchMessageHistory (store : List ChatMessage) (limit : Nat) : List ChatMessage :=
  if limit = 0 then [] else (selectRecent store limit).reverse

/-- The prompt assembly of `fetchOpenAIResponse` (VoiceAssistant.tsx lines
443-448): system prompt, persona prompt, history, then the user message. -/
def messagesForApi (systemPrompt assistantPrompt : String)
    (history : List ChatMessage) (userMessage : String) : List ChatMessage :=
  [⟨"system", systemPrompt⟩, ⟨"assistant", assistantPrompt⟩] ++ history
    ++ [⟨"user", userMessage⟩]

/-!  The controller state.

`recognitionActive` is the `isRecognitionActive` ref (true while a speech
capture session is running); `isListening` is the React `isListening`
state, cleared only by the recognizer end and error callbacks; `speaking`
means the synthesizer or the audio element is actually playing (the React
`isSpeaking` flag of the source is never set to true and plays no role in
control flow); `activated` is the armed flag; `assistantStarted` is set by
the start button. -/
structure AssistantState where
  assistantStarted : Bool
  activated : Bool
  recognitionActive : Bool
  isListening : Bool
  speaking : Bool
  deriving DecidableEq

/-- `startListening` (VoiceAssistant.tsx lines 40-58): starts capture unless
a session is already active (an already-started session is left as is). -/
def startListening (s : AssistantState) : AssistantState :=
  if s.recognitionActive then s
  else { s with recognitionActive := true, isListening := true }

/-- `stopListening` (VoiceAssistant.tsx lines 60-65): stops capture when it
is active; a no-op otherwise.  The React `isListening` flag is cleared later
by the recognizer end callback, not here. -/
def stopListening (s : AssistantState) : AssistantState :=
  if s.recognitionActive then { s with recognitionActive := false } else s

/-- `stopSpeaking` (VoiceAssistant.tsx lines 205-213): cancels synthesis and
pauses the audio element, so playback is inactive afterwards. -/
def stopSpeaking (s : AssistantState) : AssistantState :=
  { s with speaking := false }

/-- `speak` (VoiceAssistant.tsx lines 129-203): an empty text returns at
once; otherwise any ongoing playback is cancelled and playback of the new
text starts (browser synthesis or remote-synthesis audio element). -/
def speak (text : String) (s : AssistantState) : AssistantState :=
  if text = "" then s else { s with speaking := true }

/-- `onSpeechEnd` (VoiceAssistant.tsx lines 289-296): playback is over; when
the assistant is started and the listening flag is down, capture restarts. -/
def onSpeechEnd (s : AssistantState) : AssistantState :=
  let s1 := { s with speaking := false }
  if s1.assistantStarted && !s1.isListening then startListening s1 else s1

/-- The stop phrase tested at VoiceAssistant.tsx line 244. -/
def stopPhrase : String := "parar de falar"

/-- The confirmation utterance spoken on arming (line 253). -/
def confirmationText : String := "Assistente ativado. Pode falar."

/-- Outcome of one recognizer result event: the new controller state,
whether `processUserInput` was invoked (and with which text), and whether a
`speak` call was issued directly by the handler. -/
structure RecResult where
  state : AssistantState
  dispatched : Option String
  spoke : Option String
  deriving DecidableEq

/-- `onRecognitionResult` (VoiceAssistant.tsx lines 240-261) on an already
normalized (trimmed, lowercased) transcript: a transcript containing the
stop phrase stops capture and playback; otherwise, when not activated, a
transcript containing the lowercased activation phrase arms and speaks the
confirmation (without stopping capture); when activated, capture is stopped
and the transcript is dispatched to `processUserInput`. -/
def onRecognitionResult (activationPhrase text : String) (s : AssistantState) :
    RecResult :=
  if jsIncludes text stopPhrase then
    { state := stopSpeaking (stopListening s), dispatched := none, spoke := none }
  else if !s.activated then
    if jsIncludes text (toLowerStr activationPhrase) then
      { state := speak confirmationText { s with activated := true },
        dispatched := none, spoke := some confirmationText }
    else
      { state := s, dispatched := none, spoke := none }
  else
    { state := stopListening s, dispatched := some text, spoke := none }

/-- The recognizer result pipeline: the raw transcript is trimmed and
lowercased (line 81) before reaching `onRecognitionResult`. -/
def onRawRecognitionResult (activationPhrase raw : String) (s : AssistantState) :
    RecResult :=
  onRecognitionResult activationPhrase (normalizeTranscript raw) s

/-- The recognizer error callback (VoiceAssistant.tsx lines 95-104 together
with the `onRecognitionError` React callback at lines 263-270): the active
flag and the listening flag are cleared, and unless the error is "aborted" a
capture restart is scheduled; no condition on playback is checked. -/
def onRecognitionErrorEvent (error : String) (s : AssistantState) : AssistantState :=
  let s1 := { s with recognitionActive := false, isListening := false }
  if error = "aborted" then s1 else startListening s1

/-!  Event-driven controller semantics.  Each event applies the source
handler for that callback; `pending` records an in-flight
`processUserInput` dispatch whose model reply has not yet been spoken. -/
inductive Event where
  | start
  | result (text : String)
  | reply (text : String)
  | speechEnd
  | recEnd
  | recError (e : String)
  deriving DecidableEq

structure Ctrl where
  st : AssistantState
  pending : Bool
  deriving DecidableEq

/-- The state before the start button is pressed. -/
def initCtrl : Ctrl :=
  { st := { assistantStarted := false, activated := false,
            recognitionActive := false, isListening := false, speaking := false },
    pending := false }

/-- One controller step.  `start` models `startAssistant` followed by the
auto-start effect (lines 484-487 and 337-357, microphone granted);
`result` applies `onRecognitionResult` when a capture session is active;
`reply` models the model response arriving inside `processUserInput` and
being spoken (lines 412-414); the remaining events apply the corresponding
callbacks. -/
def step (activationPhrase : String) (e : Event) (c : Ctrl) : Ctrl :=
  match e with
  | .start =>
      let started := { c.st with assistantStarted := true, activated := false }
      { c with st := startListening started }
  | .result text =>
      if c.st.recognitionActive then
        let r := onRecognitionResult activationPhrase text c.st
        { st := r.state, pending := c.pending || r.dispatched.isSome }
      else c
  | .reply text =>
      if c.pending then { st := speak text c.st, pending := false } else c
  | .speechEnd => { c with st := onSpeechEnd c.st }
  | .recEnd => { c with st := { c.st with isListening := false } }
  | .recError e => { c with st := onRecognitionErrorEvent e c.st }

/-- Run a list of events from a state. -/
def run (activationPhrase : String) (evs : List Event) (c : Ctrl) : Ctrl :=
  evs.foldl (fun a e => step activationPhrase e a) c

/-- A controller state is reachable when some event trace produces it from
the initial state. -/
def Reachable (activationPhrase : String) (c : Ctrl) : Prop :=
  ∃ evs, run activationPhrase evs initCtrl = c

/-- A session that is armed and actively listening, no playback. -/
def armedListeningState : AssistantState :=
  { assistantStarted := true, activated := true, recognitionActive := true,
    isListening := true, speaking := false }

/-- A started session that is listening but not yet armed. -/
def armingState : AssistantState :=
  { assistantStarted := true, activated := false, recognitionActive := true,
    isListening := true, speaking := false }

/-- Armed listening controller with no dispatch in flight. -/
def armedCtrl : Ctrl := { st := armedListeningState, pending := false }

/-- Armed session in which the reply playback is active and capture is
stopped. -/
def replySpeakingState : AssistantState :=
  { assistantStarted := true, activated := true, recognitionActive := false,
    isListening := false, speaking := true }

/-- Session state right after a dispatch: armed, capture stopped, the
recognizer end callback already processed, nothing playing yet. -/
def postDispatchState : AssistantState :=
  { assistantStarted := true, activated := true, recognitionActive := false,
    isListening := false, speaking := false }

/-- Fixed strings of `fetchOpenAIResponse` (VoiceAssistant.tsx lines
431-482): the toast and stub reply for a missing key, the toast and stub
reply for the unsupported model family, the apology reply for a failed
call, and the fallback reply for a missing content field. -/
def noKeyToast : String := "Chave API OpenAI não configurada."

def noKeyReply : String := "Desculpe, a chave da API OpenAI não está configurada."

def geminiToast : String := "Modelo Gemini IA ainda não está implementado. Use OpenAI."

def geminiReply : String := "Modelo Gemini IA não suportado ainda."

def apologyReply : String := "Desculpe, não consegui processar sua solicitação."

def fallbackReply : String := "Desculpe, não entendi."

/-- Abstract view of the chat-completion HTTP response: the ok flag and
status text of the response, the `error.message` field of the parsed JSON
body when present, and `choices[0].message.content` when present. -/
structure ChatResponse where
  ok : Bool
  statusText : String
  errorMessage : Option String
  content : Option String
  deriving DecidableEq

/-- What `fetchOpenAIResponse` produces: the returned reply string and the
error message surfaced through the toast, when any. -/
structure FetchOutcome where
  reply : String
  surfacedError : Option String
  deriving DecidableEq

/-- `fetchOpenAIResponse` (VoiceAssistant.tsx lines 431-482): an empty key
yields a toast and a stub reply; the model "gemini-pro" yields a toast and
a stub reply; a non-ok response surfaces `error.message` when present, else
the status text, and returns the apology reply; an ok response returns the
content, or the fallback reply when the content field is missing. -/
def fetchOpenAIResponse (openAiApiKey modelName : String) (resp : ChatResponse) :
    FetchOutcome :=
  if openAiApiKey = "" then
    { reply := noKeyReply, surfacedError := some noKeyToast }
  else if modelName = "gemini-pro" then
    { reply := geminiReply, surfacedError := some geminiToast }
  else if !resp.ok then
    { reply := apologyReply,
      surfacedError := some ("Erro OpenAI: " ++ resp.errorMessage.getD resp.statusText) }
  else
    { reply := resp.content.getD fallbackReply, surfacedError := none }

/-- The persistence effect of `processUserInput` (VoiceAssistant.tsx lines
388-428) on the message store: the user turn is inserted, then the
assistant turn holding the reply text — whatever `fetchOpenAIResponse`
returned, stub and apology replies included. -/
def processUserInputTurns (inputText reply : String) (store : List ChatMessage) :
    List ChatMessage :=
  store ++ [⟨"user", inputText⟩] ++ [⟨"assistant", reply⟩]

/-- The HTTP 401 chat-completion response of the spec scenario: body
`error.message` equal to "invalid key". -/
def resp401 : ChatResponse :=
  { ok := false, statusText := "Unauthorized",
    errorMessage := some "invalid key", content := none }

/-- Minimal JSON value, standing for the result of a successful JSON.parse
of the target response body. -/
inductive JsonValue where
  | null
  | bool (b : Bool)
  | num (n : Int)
  | str (s : String)
  | arr (elems : List JsonValue)
  | obj (fields : List (String × JsonValue))

/-- The data field the relay sends back: parsed JSON when the target body
parses, the raw text otherwise. -/
inductive RelayData where
  | json (v : JsonValue)
  | text (t : String)

/-- What the relay observes of the completed fetch to the target. -/
structure TargetResponse where
  status : Nat
  statusText : String
  ok : Bool
  bodyText : String
  headerEntries : List (String × String)
  deriving DecidableEq

/-- The JSON body of the relay response to its caller. -/
structure RelayBody where
  status : Nat
  statusText : String
  ok : Bool
  data : RelayData
  headerEntries : List (String × String)

/-- The relay HTTP response to its caller: its own status and JSON body. -/
structure RelayResponse where
  status : Nat
  body : RelayBody

/-- The success-path response construction of the relay
(src/supabase/functions/proxy-api/index.ts lines 28-54).  `JSON.parse` is a
platform primitive, so its outcome on the target body text is passed in as
`parsed` (`some` when the body parses as JSON, `none` otherwise). -/
def buildRelayResponse (resp : TargetResponse) (parsed : Option JsonValue) :
    RelayResponse :=
  { status := 200,
    body := { status := resp.status, statusText := resp.statusText, ok := resp.ok,
              data := match parsed with
                      | some v => RelayData.json v
                      | none => RelayData.text resp.bodyText,
              headerEntries := resp.headerEntries } }

/-- String append distributes over the character lists. -/
theorem strToListAppend (a b : String) : (a ++ b).toList = a.toList ++ b.toList := rfl

/-- A string is an empty-lowering string only when it is empty: helper for
the empty-transcript analysis. -/
theorem toLowerStrEqEmpty (s : String) (h : (toLowerStr s).toList = []) : s = "" := by
  cases s with
  | mk d =>
    have hd : d.map Char.toLower = [] := h
    have hnil : d = [] := by simpa using hd
    simp [hnil]

/-- C6: for every store and every limit n, the recent-history read returns
at most n items, the result is a contiguous suffix of the chronological
store (hence the most recent turns in oldest-first order), and it is
literally the reversal of the recency-descending fetch. -/
theorem c6_recent_bounded_chronological (store : List ChatMessage) (n : Nat) :
    (fetchMessageHistory store n).length ≤ n ∧
    fetchMessageHistory store n <:+ store ∧
    fetchMessageHistory store n = (selectRecent store n).reverse := by
  refine ⟨?_, ?_, ?_⟩
  · unfold fetchMessageHistory selectRecent
    split
    · simp
    · simp only [List.length_reverse, List.length_take]
      omega
  · unfold fetchMessageHistory selectRecent
    split
    · exact ⟨store, by simp⟩
    · refine ⟨(store.reverse.drop n).reverse, ?_⟩
      rw [← List.reverse_append, List.take_append_drop, List.reverse_reverse]
  · unfold fetchMessageHistory selectRecent
    split
    · simp_all
    · rfl

/-- C7: with memory depth zero the history read is always empty, and the
prompt sent to the model is exactly the system prompt, the persona prompt
and the current user utterance, with no history turns. -/
theorem c7_memory_depth_zero (store : List ChatMessage) (sp ap u : String) :
    fetchMessageHistory store 0 = [] ∧
    messagesForApi sp ap (fetchMessageHistory store 0) u =
      [⟨"system", sp⟩, ⟨"assistant", ap⟩, ⟨"user", u⟩] :=
  ⟨rfl, rfl⟩

/-- C1 (counterexample): the trace start button, then a transcript equal to
the activation phrase, reaches a state in which capture is still active and
the activation-confirmation playback is active at the same time — the
arming branch of `onRecognitionResult` speaks without stopping capture. -/
theorem c1_counterexample :
    Reachable "ativar" (run "ativar" [Event.start, Event.result "ativar"] initCtrl) ∧
    (run "ativar" [Event.start, Event.result "ativar"] initCtrl).st.recognitionActive = true ∧
    (run "ativar" [Event.start, Event.result "ativar"] initCtrl).st.speaking = true :=
  ⟨⟨[Event.start, Event.result "ativar"], rfl⟩, by decide, by decide⟩

/-- C1 (amended): in the armed command path, mutual exclusion holds: a
recognized command stops capture before dispatch, the model reply is then
played with capture inactive, and the resume-capture continuation only runs
once playback is flagged inactive — but this does not extend to the
activation-confirmation utterance, which is spoken while capture stays
active (see the counterexample). -/
theorem c1_amended (phrase text reply : String) (c : Ctrl) (s : AssistantState)
    (hact : c.st.activated = true) (hrec : c.st.recognitionActive = true)
    (hstop : jsIncludes text stopPhrase = false) (hreply : reply ≠ "") :
    (step phrase (Event.result text) c).st.recognitionActive = false ∧
    (step phrase (Event.reply reply)
        (step phrase (Event.result text) c)).st.recognitionActive = false ∧
    (step phrase (Event.reply reply)
        (step phrase (Event.result text) c)).st.speaking = true ∧
    (onSpeechEnd s).speaking = false := by
  refine ⟨?_, ?_, ?_, ?_⟩
  · simp [step, hrec, onRecognitionResult, hstop, hact, stopListening]
  · simp [step, hrec, onRecognitionResult, hstop, hact, stopListening, speak, hreply]
  · simp [step, hrec, onRecognitionResult, hstop, hact, stopListening, speak, hreply]
  · simp only [onSpeechEnd, startListening]
    split
    · split
      · rfl
      · rfl
    · rfl

/-- C1 (witness): the amended statement at the concrete armed session, the
transcript "que horas são" and the reply "São 10h.". -/
theorem c1_witness :
    (step "ativar" (Event.result "que horas são") armedCtrl).st.recognitionActive = false ∧
    (step "ativar" (Event.reply "São 10h.")
        (step "ativar" (Event.result "que horas são") armedCtrl)).st.recognitionActive = false ∧
    (step "ativar" (Event.reply "São 10h.")
        (step "ativar" (Event.result "que horas são") armedCtrl)).st.speaking = true ∧
    (onSpeechEnd armedListeningState).speaking = false :=
  c1_amended "ativar" "que horas são" "São 10h." armedCtrl armedListeningState
    rfl rfl (by decide) (by decide)

/-- C2 (counterexample): an armed session hears a transcript containing the
stop wording in both of its variants; the armed flag is not reset — the
stop branch of `onRecognitionResult` never touches `activated`. -/
theorem c2_counterexample :
    (onRecognitionResult "ativar" "pare de falar parar de falar"
        armedListeningState).state.activated = true := by decide

/-- C2 (amended): a transcript containing the stop phrase "parar de falar"
cancels capture and playback and dispatches nothing, but the armed flag
keeps its previous value; it is not reset to false. -/
theorem c2_amended (phrase text : String) (s : AssistantState)
    (h : jsIncludes text stopPhrase = true) :
    onRecognitionResult phrase text s =
      { state := { s with recognitionActive := false, speaking := false },
        dispatched := none, spoke := none } := by
  cases s with
  | mk a b r l sp =>
    simp only [onRecognitionResult, h, if_true, stopListening, stopSpeaking]
    cases r <;> simp

/-- C2 (witness): the amended statement at the armed session and a concrete
transcript containing the stop phrase. -/
theorem c2_witness :
    onRecognitionResult "ativar" "quero parar de falar agora" armedListeningState =
      { state := { armedListeningState with recognitionActive := false, speaking := false },
        dispatched := none, spoke := none } :=
  c2_amended "ativar" "quero parar de falar agora" armedListeningState (by decide)

/-- C3 (counterexample): an empty transcript in an armed listening session
is not ignored: capture is stopped, the empty text is dispatched to
`processUserInput`, and the persistence path records a user turn with empty
content followed by the assistant turn. -/
theorem c3_counterexample :
    (onRecognitionResult "ativar" "" armedListeningState).dispatched = some "" ∧
    (onRecognitionResult "ativar" "" armedListeningState).state ≠ armedListeningState ∧
    processUserInputTurns "" fallbackReply [] =
      [⟨"user", ""⟩, ⟨"assistant", fallbackReply⟩] := by
  refine ⟨by decide, by decide, rfl⟩

/-- C3 (amended): with a nonempty activation phrase, an empty transcript is
ignored only while not armed (no dispatch, no state change); while armed it
is dispatched like any other transcript, stopping capture and creating a
user turn. -/
theorem c3_amended (phrase : String) (s : AssistantState) (hph : phrase ≠ "") :
    onRecognitionResult phrase "" s =
      (if s.activated then
        { state := stopListening s, dispatched := some "", spoke := none }
      else { state := s, dispatched := none, spoke := none }) := by
  have hstop0 : jsIncludes "" stopPhrase = false := by decide
  have hact : jsIncludes "" (toLowerStr phrase) = false := by
    simp only [jsIncludes, decide_eq_false_iff_not]
    intro hcon
    apply hph
    rcases hcon with ⟨pre, post, hpp⟩
    have hpp2 : (pre ++ (toLowerStr phrase).toList) ++ post = [] := hpp
    rcases List.append_eq_nil.mp hpp2 with ⟨h1, _⟩
    rcases List.append_eq_nil.mp h1 with ⟨_, h2⟩
    exact toLowerStrEqEmpty phrase h2
  cases hb : s.activated <;>
    simp [onRecognitionResult, hstop0, hact, hb]

/-- C3 (witness): the amended statement at the armed listening session with
the activation phrase "ativar". -/
theorem c3_witness :
    onRecognitionResult "ativar" "" armedListeningState =
      (if armedListeningState.activated then
        { state := stopListening armedListeningState, dispatched := some "", spoke := none }
      else { state := armedListeningState, dispatched := none, spoke := none }) :=
  c3_amended "ativar" armedListeningState (by decide)

/-- C4 (counterexample): on the HTTP 401 response with body error message
"invalid key", the failed attempt still appends an assistant turn — the one
holding the fixed apology reply. -/
theorem c4_counterexample :
    (processUserInputTurns "que horas são"
        (fetchOpenAIResponse "sk-test" "gpt-4o-mini" resp401).reply []).getLast? =
      some ⟨"assistant", apologyReply⟩ := by decide

/-- C4 (amended): on a non-ok chat-completion response the surfaced error
is built from the body error message when present, else the status text,
and the surfaced text contains the body error message; the reply is the
fixed apology, which is appended as an assistant turn for the failed
attempt; after the apology playback ends, listening resumes. -/
theorem c4_amended (key modelName input m : String) (store : List ChatMessage)
    (resp : ChatResponse) (s : AssistantState)
    (hkey : key ≠ "") (hmodel : modelName ≠ "gemini-pro") (hok : resp.ok = false)
    (hmsg : resp.errorMessage = some m)
    (hstart : s.assistantStarted = true) (hlist : s.isListening = false) :
    (fetchOpenAIResponse key modelName resp).surfacedError =
      some ("Erro OpenAI: " ++ resp.errorMessage.getD resp.statusText) ∧
    jsIncludes ("Erro OpenAI: " ++ resp.errorMessage.getD resp.statusText) m = true ∧
    (fetchOpenAIResponse key modelName resp).reply = apologyReply ∧
    processUserInputTurns input (fetchOpenAIResponse key modelName resp).reply store =
      store ++ [⟨"user", input⟩] ++ [⟨"assistant", apologyReply⟩] ∧
    (onSpeechEnd (speak apologyReply s)).recognitionActive = true ∧
    (onSpeechEnd (speak apologyReply s)).speaking = false := by
  have hfetch : fetchOpenAIResponse key modelName resp =
      { reply := apologyReply,
        surfacedError := some ("Erro OpenAI: " ++ resp.errorMessage.getD resp.statusText) } := by
    simp [fetchOpenAIResponse, hkey, hmodel, hok]
  have hne : apologyReply ≠ "" := by decide
  have hresume : (onSpeechEnd (speak apologyReply s)).recognitionActive = true ∧
      (onSpeechEnd (speak apologyReply s)).speaking = false := by
    simp only [speak, if_neg hne, onSpeechEnd, startListening]
    cases hr : s.recognitionActive <;> simp [hstart, hlist, hr]
  refine ⟨by rw [hfetch], ?_, by rw [hfetch], by rw [hfetch]; rfl, hresume.1, hresume.2⟩
  rw [hmsg]
  refine decide_eq_true ?_
  exact ⟨("Erro OpenAI: " : String).toList, [], by simp [strToListAppend]⟩

/-- C4 (witness): the amended statement at the concrete 401 response of the
spec scenario and the post-dispatch session. -/
theorem c4_witness :
    (fetchOpenAIResponse "sk-test" "gpt-4o-mini" resp401).surfacedError =
      some ("Erro OpenAI: " ++ resp401.errorMessage.getD resp401.statusText) ∧
    jsIncludes ("Erro OpenAI: " ++ resp401.errorMessage.getD resp401.statusText)
        "invalid key" = true ∧
    (fetchOpenAIResponse "sk-test" "gpt-4o-mini" resp401).reply = apologyReply ∧
    processUserInputTurns "que horas são"
        (fetchOpenAIResponse "sk-test" "gpt-4o-mini" resp401).reply [] =
      [] ++ [⟨"user", "que horas são"⟩] ++ [⟨"assistant", apologyReply⟩] ∧
    (onSpeechEnd (speak apologyReply postDispatchState)).recognitionActive = true ∧
    (onSpeechEnd (speak apologyReply postDispatchState)).speaking = false :=
  c4_amended "sk-test" "gpt-4o-mini" "que horas são" "invalid key" [] resp401
    postDispatchState (by decide) (by decide) rfl rfl rfl rfl

/-- C5 (counterexample): with no credential configured the code does not
fail with a distinct error category: it returns the fixed stub reply (plus
an error toast), and the stub is appended as an assistant turn and spoken
like a normal reply. -/
theorem c5_counterexample :
    fetchOpenAIResponse "" "gpt-4o-mini" resp401 =
      { reply := noKeyReply, surfacedError := some noKeyToast } ∧
    processUserInputTurns "oi" noKeyReply [] =
      [⟨"user", "oi"⟩, ⟨"assistant", noKeyReply⟩] :=
  ⟨rfl, rfl⟩

/-- C5 (amended): with an empty credential, reply generation surfaces a
configuration error toast and degrades to a fixed stub reply; the stub is
persisted as an assistant turn, and after its playback the controller
resumes listening — there is no distinct error category and no hold. -/
theorem c5_amended (modelName input : String) (store : List ChatMessage)
    (resp : ChatResponse) (s : AssistantState)
    (hstart : s.assistantStarted = true) (hlist : s.isListening = false) :
    fetchOpenAIResponse "" modelName resp =
      { reply := noKeyReply, surfacedError := some noKeyToast } ∧
    processUserInputTurns input noKeyReply store =
      store ++ [⟨"user", input⟩] ++ [⟨"assistant", noKeyReply⟩] ∧
    (onSpeechEnd (speak noKeyReply s)).recognitionActive = true ∧
    (onSpeechEnd (speak noKeyReply s)).speaking = false := by
  have hne : noKeyReply ≠ "" := by decide
  refine ⟨rfl, rfl, ?_, ?_⟩ <;>
    · simp only [speak, if_neg hne, onSpeechEnd, startListening]
      cases hr : s.recognitionActive <;> simp [hstart, hlist, hr]

/-- C5 (witness): the amended statement at a concrete model, input, store
and session. -/
theorem c5_witness :
    fetchOpenAIResponse "" "gpt-4o-mini" resp401 =
      { reply := noKeyReply, surfacedError := some noKeyToast } ∧
    processUserInputTurns "oi" noKeyReply [] =
      [] ++ [⟨"user", "oi"⟩] ++ [⟨"assistant", noKeyReply⟩] ∧
    (onSpeechEnd (speak noKeyReply postDispatchState)).recognitionActive = true ∧
    (onSpeechEnd (speak noKeyReply postDispatchState)).speaking = false :=
  c5_amended "gpt-4o-mini" "oi" [] resp401 postDispatchState rfl rfl

/-- C8 (counterexample): a transcript that contains the activation phrase
surrounded by extra words can still fail to arm: when the surrounding words
contain the stop phrase, the stop branch wins, the session stays unarmed
and no confirmation is spoken. -/
theorem c8_counterexample :
    (onRawRecognitionResult "ativar" "ativar parar de falar" armingState).state.activated
        = false ∧
    (onRawRecognitionResult "ativar" "ativar parar de falar" armingState).spoke = none := by
  refine ⟨by decide, by decide⟩

/-- C8 (amended): arming matches the lowercased activation phrase as a
substring of the trimmed, lowercased transcript — extra surrounding words
still activate, and matching is case-insensitive; while not armed, a
matching transcript arms and triggers the confirmation utterance and a
non-matching one leaves everything unchanged, provided the transcript does
not contain the stop phrase, which takes priority and prevents arming. -/
theorem c8_amended (phrase raw : String) (s : AssistantState)
    (hna : s.activated = false)
    (hns : jsIncludes (normalizeTranscript raw) stopPhrase = false) :
    onRawRecognitionResult phrase raw s =
      (if jsIncludes (normalizeTranscript raw) (toLowerStr phrase) then
        { state := speak confirmationText { s with activated := true },
          dispatched := none, spoke := some confirmationText }
      else { state := s, dispatched := none, spoke := none }) := by
  simp [onRawRecognitionResult, onRecognitionResult, hns, hna]

/-- C8 (witness): the amended statement at the unarmed session, activation
phrase "Ativar" and raw transcript "Oi ATIVAR tudo bem" — mixed case and
surrounding words. -/
theorem c8_witness :
    onRawRecognitionResult "Ativar" "Oi ATIVAR tudo bem" armingState =
      (if jsIncludes (normalizeTranscript "Oi ATIVAR tudo bem") (toLowerStr "Ativar") then
        { state := speak confirmationText { armingState with activated := true },
          dispatched := none, spoke := some confirmationText }
      else { state := armingState, dispatched := none, spoke := none }) :=
  c8_amended "Ativar" "Oi ATIVAR tudo bem" armingState rfl (by decide)

/-- C9 (counterexample): a "network" recognition error arriving while reply
playback is active still triggers the automatic capture restart — capture
becomes active during playback; the handler never consults the playback
state. -/
theorem c9_counterexample :
    (onRecognitionErrorEvent "network" replySpeakingState).recognitionActive = true ∧
    (onRecognitionErrorEvent "network" replySpeakingState).speaking = true := by
  refine ⟨by decide, by decide⟩

/-- C9 (amended): the recognition error handler restarts capture for every
error other than "aborted", regardless of whether playback is active (the
playback flag is untouched); only an "aborted" error suppresses the
restart, leaving capture stopped. -/
theorem c9_amended (error : String) (s : AssistantState) (h : error ≠ "aborted") :
    (onRecognitionErrorEvent error s).recognitionActive = true ∧
    (onRecognitionErrorEvent error s).speaking = s.speaking ∧
    onRecognitionErrorEvent "aborted" s =
      { s with recognitionActive := false, isListening := false } := by
  refine ⟨?_, ?_, ?_⟩
  · simp [onRecognitionErrorEvent, h, startListening]
  · simp [onRecognitionErrorEvent, h, startListening]
  · simp [onRecognitionErrorEvent]

/-- C9 (witness): the amended statement at the "network" error and the
session in which reply playback is active. -/
theorem c9_witness :
    (onRecognitionErrorEvent "network" replySpeakingState).recognitionActive = true ∧
    (onRecognitionErrorEvent "network" replySpeakingState).speaking
        = replySpeakingState.speaking ∧
    onRecognitionErrorEvent "aborted" replySpeakingState =
      { replySpeakingState with recognitionActive := false, isListening := false } :=
  c9_amended "network" replySpeakingState (by decide)

/-- C10: for every completed fetch to the target, the relay answers its own
caller with status 200, reports the target status, status text and ok flag
inside the JSON body, and fills the data field with the parsed JSON of the
target body when it parses, else the raw body text. -/
theorem c10_relay_wraps_target (resp : TargetResponse) (parsed : Option JsonValue) :
    (buildRelayResponse resp parsed).status = 200 ∧
    (buildRelayResponse resp parsed).body.status = resp.status ∧
    (buildRelayResponse resp parsed).body.statusText = resp.statusText ∧
    (buildRelayResponse resp parsed).body.ok = resp.ok ∧
    (buildRelayResponse resp parsed).body.data =
      (match parsed with
       | some v => RelayData.json v
       | none => RelayData.text resp.bodyText) :=
  ⟨rfl, rfl, rfl, rfl, rfl⟩
